import Mathlib

/-!
Verification of the web-client call layer of gmusicapi
(`gmusicapi/newprotocol/webclient.py` and `gmusicapi/exceptions.py`).

The embedding models decoded JSON values (`JVal`), Python truthiness,
`json.dumps` serialization, the exception types, the shared
`WcCall.check_success` / `WcCall.validate` machinery, and the concrete call
descriptors (`AddPlaylist`, `AddToPlaylist`, `ChangePlaylistOrder`,
`GetLibrarySongs`, `ReportBadSongMatch`) whose `dynamic_data` builders and
`validate` overrides the claims are about.

The `validictory` schema-validation library used by `WcCall.validate` is an
external dependency whose code is not part of the repository; it is modelled
from the specification of the Schema Validator (section 4.1 of the spec), as
is `utils.truncate` used by `GetLibrarySongs.filter_response`.
-/

/-- A decoded JSON value, the result of `Call._parse_json` on raw response
text: null, booleans, integers, strings, arrays, and objects (Python dicts,
kept as ordered association lists the way Python preserves insertion order). -/
inductive JVal : Type where
  | null : JVal
  | bool (b : Bool) : JVal
  | int (n : Int) : JVal
  | str (s : String) : JVal
  | arr (xs : List JVal) : JVal
  | obj (kvs : List (String × JVal)) : JVal
deriving Repr

mutual

/-- Structural equality of decoded JSON values (Python `==` / `!=` on the
decoded structures). -/
def JVal.beq : JVal → JVal → Bool
  | .null, .null => true
  | .bool a, .bool b => a == b
  | .int a, .int b => a == b
  | .str a, .str b => a == b
  | .arr a, .arr b => JVal.beqList a b
  | .obj a, .obj b => JVal.beqPairs a b
  | _, _ => false

/-- Elementwise structural equality of JSON arrays. -/
def JVal.beqList : List JVal → List JVal → Bool
  | [], [] => true
  | x :: xs, y :: ys => JVal.beq x y && JVal.beqList xs ys
  | _, _ => false

/-- Pairwise structural equality of JSON objects (as ordered pair lists). -/
def JVal.beqPairs : List (String × JVal) → List (String × JVal) → Bool
  | [], [] => true
  | (k1, v1) :: xs, (k2, v2) :: ys => k1 == k2 && JVal.beq v1 v2 && JVal.beqPairs xs ys
  | _, _ => false

end

mutual

theorem JVal.beq_iff : ∀ a b : JVal, JVal.beq a b = true ↔ a = b
  | .null, .null => by simp [JVal.beq]
  | .bool _, .bool _ => by simp [JVal.beq]
  | .int _, .int _ => by simp [JVal.beq]
  | .str _, .str _ => by simp [JVal.beq]
  | .arr a, .arr b => by simp [JVal.beq, JVal.beqList_iff a b]
  | .obj a, .obj b => by simp [JVal.beq, JVal.beqPairs_iff a b]
  | .null, .bool _ | .null, .int _ | .null, .str _ | .null, .arr _ | .null, .obj _
  | .bool _, .null | .bool _, .int _ | .bool _, .str _ | .bool _, .arr _ | .bool _, .obj _
  | .int _, .null | .int _, .bool _ | .int _, .str _ | .int _, .arr _ | .int _, .obj _
  | .str _, .null | .str _, .bool _ | .str _, .int _ | .str _, .arr _ | .str _, .obj _
  | .arr _, .null | .arr _, .bool _ | .arr _, .int _ | .arr _, .str _ | .arr _, .obj _
  | .obj _, .null | .obj _, .bool _ | .obj _, .int _ | .obj _, .str _ | .obj _, .arr _ => by
      simp [JVal.beq]

theorem JVal.beqList_iff : ∀ a b : List JVal, JVal.beqList a b = true ↔ a = b
  | [], [] => by simp [JVal.beqList]
  | [], _ :: _ => by simp [JVal.beqList]
  | _ :: _, [] => by simp [JVal.beqList]
  | x :: xs, y :: ys => by
      simp [JVal.beqList, JVal.beq_iff x y, JVal.beqList_iff xs ys]

theorem JVal.beqPairs_iff : ∀ a b : List (String × JVal), JVal.beqPairs a b = true ↔ a = b
  | [], [] => by simp [JVal.beqPairs]
  | [], _ :: _ => by simp [JVal.beqPairs]
  | _ :: _, [] => by simp [JVal.beqPairs]
  | (_, v1) :: xs, (_, v2) :: ys => by
      simp [JVal.beqPairs, JVal.beq_iff v1 v2, JVal.beqPairs_iff xs ys]

end

instance : DecidableEq JVal := fun a b =>
  decidable_of_iff (JVal.beq a b = true) (JVal.beq_iff a b)

/-- Python truthiness of a decoded JSON value: `None`, `False`, `0`, the empty
string, the empty list and the empty dict are falsy; everything else is
truthy.  This is the meaning of `not res[...]` in the source. -/
def truthy : JVal → Bool
  | .null => false
  | .bool b => b
  | .int n => n != 0
  | .str s => s != ""
  | .arr xs => !xs.isEmpty
  | .obj kvs => !kvs.isEmpty

/-- Key lookup on a decoded JSON object (`value[key]` on a dict); `none` for
non-objects or missing keys. -/
def JVal.lookupKey : JVal → String → Option JVal
  | .obj kvs, k => kvs.lookup k
  | _, _ => none

/-- Lowercase hexadecimal digit, as used by Python json unicode escapes. -/
def hexDigit (n : Nat) : Char :=
  Char.ofNat (if n < 10 then 48 + n else 87 + n)

/-- Four lowercase hex digits of a code unit, for a Python json escape. -/
def hex4 (n : Nat) : String :=
  String.mk [hexDigit (n / 4096 % 16), hexDigit (n / 256 % 16),
             hexDigit (n / 16 % 16), hexDigit (n % 16)]

/-- Escape of a single character inside a JSON string literal, following
Python json.dumps defaults (ensure_ascii=True): printable ASCII other than
the quote and the backslash is kept, the short escapes are used where they
exist, and every other character becomes a lowercase unicode escape (a
surrogate pair above the BMP). -/
def jsonEscapeChar (c : Char) : String :=
  if c = '"' then "\\\""
  else if c = '\\' then "\\\\"
  else if c = '\n' then "\\n"
  else if c = '\t' then "\\t"
  else if c = '\r' then "\\r"
  else if c = '\x08' then "\\b"
  else if c = '\x0c' then "\\f"
  else if c.toNat < 32 ∨ c.toNat > 126 then
    if c.toNat < 65536 then "\\u" ++ hex4 c.toNat
    else
      "\\u" ++ hex4 (55296 + (c.toNat - 65536) / 1024) ++
      "\\u" ++ hex4 (56320 + (c.toNat - 65536) % 1024)
  else String.singleton c

/-- A JSON string literal as Python json.dumps renders it. -/
def jsonStr (s : String) : String :=
  "\"" ++ String.join (s.data.map jsonEscapeChar) ++ "\""

mutual

/-- Python `json.dumps` with its default separators: item separator a comma
followed by a space, key separator a colon followed by a space. -/
def jsonDumps : JVal → String
  | .null => "null"
  | .bool true => "true"
  | .bool false => "false"
  | .int n => toString n
  | .str s => jsonStr s
  | .arr xs => "[" ++ String.intercalate ", " (jsonDumpsList xs) ++ "]"
  | .obj kvs => "\x7b" ++ String.intercalate ", " (jsonDumpsPairs kvs) ++ "\x7d"

/-- Serializations of the elements of a JSON array. -/
def jsonDumpsList : List JVal → List String
  | [] => []
  | x :: xs => jsonDumps x :: jsonDumpsList xs

/-- Serializations of the entries of a JSON object. -/
def jsonDumpsPairs : List (String × JVal) → List String
  | [] => []
  | (k, v) :: kvs => (jsonStr k ++ ": " ++ jsonDumps v) :: jsonDumpsPairs kvs

end

/-- Escape of a character inside a Python single-quoted repr literal. -/
def pyStrEscapeChar (c : Char) : String :=
  if c = '\\' then "\\\\"
  else if c = '\x27' then "\\\x27"
  else if c = '\n' then "\\n"
  else if c = '\t' then "\\t"
  else if c = '\r' then "\\r"
  else String.singleton c

mutual

/-- Python `repr` of a decoded JSON value, as interpolated by the `%r` format
specifier: `None`/`True`/`False`, decimal integers, single-quoted strings,
bracketed lists and braced dicts with comma-space separators. -/
def pyRepr : JVal → String
  | .null => "None"
  | .bool true => "True"
  | .bool false => "False"
  | .int n => toString n
  | .str s => "\x27" ++ String.join (s.data.map pyStrEscapeChar) ++ "\x27"
  | .arr xs => "[" ++ String.intercalate ", " (pyReprList xs) ++ "]"
  | .obj kvs => "\x7b" ++ String.intercalate ", " (pyReprPairs kvs) ++ "\x7d"

/-- Python reprs of the elements of a list. -/
def pyReprList : List JVal → List String
  | [] => []
  | x :: xs => pyRepr x :: pyReprList xs

/-- Python reprs of the entries of a dict. -/
def pyReprPairs : List (String × JVal) → List String
  | [] => []
  | (k, v) :: kvs =>
      ("\x27" ++ String.join (k.data.map pyStrEscapeChar) ++ "\x27" ++ ": " ++ pyRepr v) ::
      pyReprPairs kvs

end

/-- The request body built by a web-client `dynamic_data`: the dict
`\x7b'json': json.dumps(...)\x7d` sent as form data, carrying the serialized
payload under the single key `json`. -/
structure ReqBody where
  json : String
deriving Repr, DecidableEq

/-- `gmusicapi.exceptions.CallFailure`: raised when the server responds that
a call failed; carries the message and the name of the Call that failed
(`callname`, set from `cls.__name__`). -/
structure CallFailure where
  message : String
  callname : String
deriving Repr, DecidableEq

/-- `gmusicapi.exceptions.ValidationException`: raised when a response does
not match the expected schema or literal; carries the message it was built
from. -/
structure ValidationException where
  message : String
deriving Repr, DecidableEq

/-- The diagnostic message of the `CallFailure` raised by
`WcCall.check_success`; the source builds it from four adjacent string
literals, which Python concatenates without inserting any separator. -/
def WcCall.failure_message : String :=
  "the server reported failure. This is usually" ++
  "caused by bad arguments, but can also happen if requests" ++
  "are made too quickly (eg creating a playlist then" ++
  "modifying it before the server has created it)"

/-- `WcCall.check_success`: raises `CallFailure` exactly when the decoded
response (a JSON object, modelled as its key/value list) has a `success` key
whose value is falsy; a response without the key is treated as success.
`name` stands for `cls.__name__`. -/
def WcCall.check_success (name : String) (res : List (String × JVal)) :
    Except CallFailure Unit :=
  match res.lookup "success" with
  | some v =>
      if truthy v then Except.ok ()
      else Except.error (CallFailure.mk WcCall.failure_message name)
  | none => Except.ok ()

/-- Modelled from the spec: the structural schema format of the Schema
Validator (spec sections 4.1 and 6).  Object schemas map property names to a
required flag (default true in the concrete schemas, which mark optional
fields explicitly) and a nested schema; a closure flag disallows undeclared
properties (the source's additionalProperties false).  Array schemas carry a
single item schema; primitive schemas are type tags. -/
inductive Schema : Type where
  | string : Schema
  | boolean : Schema
  | integer : Schema
  | array (items : Schema) : Schema
  | object (props : List (String × Bool × Schema)) (closed : Bool) : Schema
deriving Repr

/-- First entry of a JSON object whose key is not declared among the schema
properties; the closure check of a closed object schema fails on it. -/
def undeclaredKey (kvs : List (String × JVal))
    (props : List (String × Bool × Schema)) : Option (String × JVal) :=
  kvs.find? (fun kv => !(props.any (fun p => p.1 == kv.1)))

/-- Every key of the JSON object is declared among the schema properties. -/
def conformsClosed (kvs : List (String × JVal))
    (props : List (String × Bool × Schema)) : Bool :=
  kvs.all (fun kv => props.any (fun p => p.1 == kv.1))

mutual

/-- Modelled from the spec: the validate operation of the validictory
library used by WcCall.validate (the library is not part of the repository
source).  Per spec section 4.1 it recursively checks the value against the
schema in declared property order, depth first, stopping at the first
mismatch; required properties must be present; a closed object schema
rejects any undeclared key; on success the value is returned unchanged. -/
def validictory.validate : JVal → Schema → Except String JVal
  | v, .string =>
      match v with
      | .str s => Except.ok (JVal.str s)
      | _ => Except.error "expected a string"
  | v, .boolean =>
      match v with
      | .bool b => Except.ok (JVal.bool b)
      | _ => Except.error "expected a boolean"
  | v, .integer =>
      match v with
      | .int n => Except.ok (JVal.int n)
      | _ => Except.error "expected an integer"
  | v, .array items =>
      match v with
      | .arr xs =>
          match validictory.validateItems xs items with
          | Except.ok _ => Except.ok (JVal.arr xs)
          | Except.error e => Except.error e
      | _ => Except.error "expected an array"
  | v, .object props closed =>
      match v with
      | .obj kvs =>
          match validictory.validateProps kvs props with
          | Except.error e => Except.error e
          | Except.ok _ =>
              if closed then
                match undeclaredKey kvs props with
                | some kv => Except.error ("unexpected property " ++ kv.1)
                | none => Except.ok (JVal.obj kvs)
              else Except.ok (JVal.obj kvs)
      | _ => Except.error "expected an object"
termination_by _ s => (sizeOf s, 0)

/-- Modelled from the spec: property-by-property check of an object value,
in declared property order; a missing property fails only when required. -/
def validictory.validateProps :
    List (String × JVal) → List (String × Bool × Schema) → Except String Unit
  | _, [] => Except.ok ()
  | kvs, (name, required, s) :: rest =>
      match kvs.lookup name with
      | some v =>
          match validictory.validate v s with
          | Except.ok _ => validictory.validateProps kvs rest
          | Except.error e => Except.error e
      | none =>
          if required then Except.error ("missing required property " ++ name)
          else validictory.validateProps kvs rest
termination_by _ props => (sizeOf props, 0)

/-- Modelled from the spec: every array element is checked against the
single item schema, stopping at the first mismatch. -/
def validictory.validateItems : List JVal → Schema → Except String Unit
  | [], _ => Except.ok ()
  | x :: xs, s =>
      match validictory.validate x s with
      | Except.ok _ => validictory.validateItems xs s
      | Except.error e => Except.error e
termination_by xs s => (sizeOf s, xs.length + 1)

end

mutual

/-- Modelled from the spec: conformance of a value to a schema, written
directly from the prose of spec section 4.1 (required and optional
properties, type tags, item schemas, closure) as an independent predicate
against which the validator is compared. -/
def conformsVal : JVal → Schema → Bool
  | v, .string =>
      match v with
      | .str _ => true
      | _ => false
  | v, .boolean =>
      match v with
      | .bool _ => true
      | _ => false
  | v, .integer =>
      match v with
      | .int _ => true
      | _ => false
  | v, .array items =>
      match v with
      | .arr xs => conformsItems xs items
      | _ => false
  | v, .object props closed =>
      match v with
      | .obj kvs => conformsProps kvs props && (!closed || conformsClosed kvs props)
      | _ => false
termination_by _ s => (sizeOf s, 0)

/-- Modelled from the spec: conformance of an object to a property list. -/
def conformsProps : List (String × JVal) → List (String × Bool × Schema) → Bool
  | _, [] => true
  | kvs, (name, required, s) :: rest =>
      (match kvs.lookup name with
       | some v => conformsVal v s
       | none => !required) && conformsProps kvs rest
termination_by _ props => (sizeOf props, 0)

/-- Modelled from the spec: conformance of array elements to an item
schema. -/
def conformsItems : List JVal → Schema → Bool
  | [], _ => true
  | x :: xs, s => conformsVal x s && conformsItems xs s
termination_by xs s => (sizeOf s, xs.length + 1)

end

/-- `WcCall.validate`: runs the validictory validator on the decoded
response against the schema stored in `cls._res_schema`, re-raising any
`ValueError` as a `ValidationException` built from its message. -/
def WcCall.validate (res_schema : Schema) (res : JVal) :
    Except ValidationException JVal :=
  match validictory.validate res res_schema with
  | Except.ok v => Except.ok v
  | Except.error e => Except.error (ValidationException.mk e)

theorem undeclaredKey_eq_none :
    ∀ (kvs : List (String × JVal)) (props : List (String × Bool × Schema)),
      conformsClosed kvs props = true → undeclaredKey kvs props = none
  | [], _, _ => rfl
  | kv :: kvs, props, h => by
      simp only [conformsClosed, List.all_cons, Bool.and_eq_true] at h
      obtain ⟨h1, h2⟩ := h
      have hrec := undeclaredKey_eq_none kvs props h2
      unfold undeclaredKey at hrec ⊢
      rw [List.find?_cons_of_neg, hrec]
      simp [h1]

mutual

theorem validate_of_conformsVal :
    ∀ (v : JVal) (s : Schema), conformsVal v s = true →
      validictory.validate v s = Except.ok v
  | v, .string, h => by
      cases v <;> simp [conformsVal] at h
      all_goals simp [validictory.validate]
  | v, .boolean, h => by
      cases v <;> simp [conformsVal] at h
      all_goals simp [validictory.validate]
  | v, .integer, h => by
      cases v <;> simp [conformsVal] at h
      all_goals simp [validictory.validate]
  | v, .array items, h => by
      cases v <;> simp [conformsVal] at h
      case arr xs =>
        simp [validictory.validate, validate_of_conformsItems xs items h]
  | v, .object props closed, h => by
      cases v <;> simp only [conformsVal, Bool.and_eq_true] at h
      case obj kvs =>
        obtain ⟨h1, h2⟩ := h
        simp only [validictory.validate, validate_of_conformsProps kvs props h1]
        cases closed with
        | false => simp
        | true =>
            simp only [Bool.not_true, Bool.false_or] at h2
            simp [undeclaredKey_eq_none kvs props h2]
      all_goals exact absurd h Bool.false_ne_true
  termination_by _ s => (sizeOf s, 0)

theorem validate_of_conformsProps :
    ∀ (kvs : List (String × JVal)) (props : List (String × Bool × Schema)),
      conformsProps kvs props = true →
      validictory.validateProps kvs props = Except.ok ()
  | _, [], _ => by simp [validictory.validateProps]
  | kvs, (name, required, s) :: rest, h => by
      simp only [conformsProps, Bool.and_eq_true] at h
      obtain ⟨h1, h2⟩ := h
      cases hl : kvs.lookup name with
      | some v =>
          rw [hl] at h1
          simp [validictory.validateProps, hl, validate_of_conformsVal v s h1,
                validate_of_conformsProps kvs rest h2]
      | none =>
          rw [hl] at h1
          simp only [Bool.not_eq_true'] at h1
          simp [validictory.validateProps, hl, h1,
                validate_of_conformsProps kvs rest h2]
  termination_by _ props => (sizeOf props, 0)

theorem validate_of_conformsItems :
    ∀ (xs : List JVal) (s : Schema), conformsItems xs s = true →
      validictory.validateItems xs s = Except.ok ()
  | [], _, _ => by simp [validictory.validateItems]
  | x :: xs, s, h => by
      simp only [conformsItems, Bool.and_eq_true] at h
      obtain ⟨h1, h2⟩ := h
      simp [validictory.validateItems, validate_of_conformsVal x s h1,
            validate_of_conformsItems xs s h2]
  termination_by xs s => (sizeOf s, xs.length + 1)

end

/-- `AddPlaylist._res_schema`: the response schema of the create-playlist
call, declaring string `id` and `title`, boolean `success`, all required,
with `additionalProperties` disallowed (a closed schema). -/
def AddPlaylist.res_schema : Schema :=
  Schema.object
    [("id", true, Schema.string),
     ("title", true, Schema.string),
     ("success", true, Schema.boolean)]
    true

/-- `AddPlaylist.dynamic_data(title)`: builds the request body
`\x7b'json': json.dumps(\x7b"title": title\x7d)\x7d`.  It is embedded in a
state monad over an arbitrary ambient state `W` (module globals,
interpreter state): the translation of the body reads and writes no such
state, which is what the purity claims quantify over. -/
def AddPlaylist.dynamic_data (W : Type) (title : String) : StateM W ReqBody :=
  pure (ReqBody.mk (jsonDumps (JVal.obj [("title", JVal.str title)])))

/-- `AddToPlaylist.dynamic_data(playlist_id, song_ids)`: builds song
references `\x7b'id': sid, 'type': 1\x7d` for each song id and serializes
`\x7b"playlistId": ..., "songRefs": ...\x7d`, embedded in the same ambient
state monad. -/
def AddToPlaylist.dynamic_data (W : Type) (playlist_id : String)
    (song_ids : List String) : StateM W ReqBody :=
  let song_refs := song_ids.map (fun sid =>
    JVal.obj [("id", JVal.str sid), ("type", JVal.int 1)])
  pure (ReqBody.mk (jsonDumps
    (JVal.obj [("playlistId", JVal.str playlist_id),
               ("songRefs", JVal.arr song_refs)])))

/-- The JSON payload built by `ChangePlaylistOrder.dynamic_data` before
serialization: omitted anchors (`None` defaults) are replaced by the empty
string, the explicit first/last-position sentinel, and the five fields are
emitted in source order. -/
def ChangePlaylistOrder.payload (playlist_id : String)
    (song_ids_moving entry_ids_moving : List String)
    (after_entry_id before_entry_id : Option String) : JVal :=
  let a := after_entry_id.getD ""
  let b := before_entry_id.getD ""
  JVal.obj
    [("playlistId", JVal.str playlist_id),
     ("movedSongIds", JVal.arr (song_ids_moving.map JVal.str)),
     ("movedEntryIds", JVal.arr (entry_ids_moving.map JVal.str)),
     ("afterEntryId", JVal.str a),
     ("beforeEntryId", JVal.str b)]

/-- `ChangePlaylistOrder.dynamic_data`: serializes the reorder payload into
the `\x7b'json': ...\x7d` request body. -/
def ChangePlaylistOrder.dynamic_data (playlist_id : String)
    (song_ids_moving entry_ids_moving : List String)
    (after_entry_id before_entry_id : Option String) : ReqBody :=
  ReqBody.mk (jsonDumps (ChangePlaylistOrder.payload playlist_id
    song_ids_moving entry_ids_moving after_entry_id before_entry_id))

/-- `GetLibrarySongs.dynamic_data(cont_token=None)`: a falsy continuation
token (`None` when omitted, or the empty string) requests the first page
with the empty JSON object; a truthy token is sent under
`continuationToken`. -/
def GetLibrarySongs.dynamic_data (cont_token : Option String) : ReqBody :=
  let req : JVal :=
    match cont_token with
    | none => JVal.obj []
    | some t =>
        if t = "" then JVal.obj []
        else JVal.obj [("continuationToken", JVal.str t)]
  ReqBody.mk (jsonDumps req)

/-- Modelled from the spec: `utils.truncate` (from `gmusicapi.utils`, not
part of the repository source), used only when emitting diagnostic records;
per the spec it keeps only the first couple of entries of a large item
listing, here the first `max_els` elements of a JSON array. -/
def utils.truncate (v : JVal) (max_els : Nat) : JVal :=
  match v with
  | JVal.arr xs => JVal.arr (xs.take max_els)
  | v => v

/-- A Python dict as a mutable object: its current key/value entries. -/
abbrev PyDict := List (String × JVal)

/-- The heap of dict objects; a reference is an index into the store, so
that the mutation performed by `filter_response` on its shallow copy can be
distinguished from a mutation of the caller's message. -/
abbrev Store := List PyDict

/-- Python item assignment `d[k] = v`: replaces the value of an existing
key in place (insertion order kept), appends the key otherwise. -/
def dictSet (d : PyDict) (k : String) (v : JVal) : PyDict :=
  if d.any (fun kv => kv.1 == k) then
    d.map (fun kv => if kv.1 == k then (k, v) else kv)
  else d ++ [(k, v)]

/-- `GetLibrarySongs.filter_response(msg)`: makes a shallow copy of the
message dict (`copy.copy`, a fresh dict object appended to the store),
reassigns the copy's `playlist` entry to the truncated listing
(`max_els=2`), and returns a reference to the copy.  `none` models the
`KeyError` when the reference is dangling or the message has no `playlist`
key. -/
def GetLibrarySongs.filter_response (store : Store) (msg : Nat) :
    Option (Store × Nat) :=
  match store[msg]? with
  | none => none
  | some d =>
      match d.lookup "playlist" with
      | none => none
      | some pl =>
          let filtered := dictSet d "playlist" (utils.truncate pl 2)
          some (store ++ [filtered], store.length)

/-- `ReportBadSongMatch.expected_response`: the literal `[[0], []]` this
call always expects back. -/
def ReportBadSongMatch.expected_response : JVal :=
  JVal.arr [JVal.arr [JVal.int 0], JVal.arr []]

/-- `ReportBadSongMatch.validate`: overrides the schema check with an exact
structural comparison against the expected literal; any other value raises
`ValidationException("response != %r" % cls.expected_response)`. -/
def ReportBadSongMatch.validate (res : JVal) : Except ValidationException Unit :=
  if res = ReportBadSongMatch.expected_response then Except.ok ()
  else
    Except.error (ValidationException.mk
      ("response != " ++ pyRepr ReportBadSongMatch.expected_response))

/-- `ReportBadSongMatch.dynamic_data(song_ids)`: serializes the jsarray
payload `[["", 1], [song_ids]]` (this call returns the bare serialized
string, not a `\x7b'json': ...\x7d` dict). -/
def ReportBadSongMatch.dynamic_data (song_ids : List String) : String :=
  jsonDumps (JVal.arr
    [JVal.arr [JVal.str "", JVal.int 1],
     JVal.arr [JVal.arr (song_ids.map JVal.str)]])

theorem get_append_singleton {α : Type} (x : α) :
    ∀ (l : List α) (i : Nat) (d : α), l[i]? = some d → (l ++ [x])[i]? = some d
  | _ :: _, 0, _, h => by simpa using h
  | _ :: l, i + 1, d, h => by
      simp only [List.cons_append, List.getElem?_cons_succ] at h ⊢
      exact get_append_singleton x l i d h
  | [], _, _, h => by simp at h

theorem undeclaredKey_isSome (kvs : List (String × JVal))
    (props : List (String × Bool × Schema)) (k : String) (v : JVal)
    (hmem : (k, v) ∈ kvs) (hnd : ∀ p ∈ props, p.1 ≠ k) :
    (undeclaredKey kvs props).isSome := by
  unfold undeclaredKey
  rw [List.find?_isSome]
  refine ⟨(k, v), hmem, ?_⟩
  simp only [Bool.not_eq_true']
  rw [List.any_eq_false]
  intro p hp
  simpa using hnd p hp

/-- C1: for every schema `S` and every value `V` conforming to `S`,
`WcCall.validate` with `cls._res_schema = S` applied to `V` succeeds and
returns `V` unchanged, per the contract
`validate(value, schema) -> value | ValidationFailure`. -/
theorem validate_conforming_returns_value_unchanged :
    ∀ (S : Schema) (V : JVal), conformsVal V S = true →
      WcCall.validate S V = Except.ok V := by
  intro S V h
  simp [WcCall.validate, validate_of_conformsVal V S h]

theorem validate_conforming_witness :
    conformsVal
      (JVal.obj [("id", JVal.str "p"), ("title", JVal.str "t"),
                 ("success", JVal.bool true)]) AddPlaylist.res_schema = true ∧
    WcCall.validate AddPlaylist.res_schema
      (JVal.obj [("id", JVal.str "p"), ("title", JVal.str "t"),
                 ("success", JVal.bool true)]) =
      Except.ok (JVal.obj [("id", JVal.str "p"), ("title", JVal.str "t"),
                           ("success", JVal.bool true)]) := by
  have h : conformsVal
      (JVal.obj [("id", JVal.str "p"), ("title", JVal.str "t"),
                 ("success", JVal.bool true)]) AddPlaylist.res_schema = true := by
    simp [conformsVal, conformsProps, conformsClosed, AddPlaylist.res_schema,
          List.lookup]
  exact ⟨h, validate_conforming_returns_value_unchanged AddPlaylist.res_schema _ h⟩

/-- C2: for every call descriptor name, `check_success` on a decoded
response whose `success` key is `false` raises a `CallFailure` carrying that
name, and on a decoded response with no `success` key raises nothing
(absence of the indicator is success). -/
theorem check_success_false_flag_and_absent_flag :
    ∀ (name : String) (res : List (String × JVal)),
      (res.lookup "success" = some (JVal.bool false) →
        WcCall.check_success name res =
          Except.error (CallFailure.mk WcCall.failure_message name)) ∧
      (res.lookup "success" = none →
        WcCall.check_success name res = Except.ok ()) := by
  intro name res
  constructor
  · intro h
    simp [WcCall.check_success, h, truthy]
  · intro h
    simp [WcCall.check_success, h]

theorem check_success_false_flag_witness :
    WcCall.check_success "AddPlaylist" [("success", JVal.bool false)] =
      Except.error (CallFailure.mk WcCall.failure_message "AddPlaylist") ∧
    WcCall.check_success "AddPlaylist" [] = Except.ok () :=
  ⟨(check_success_false_flag_and_absent_flag "AddPlaylist" _).1 rfl,
   (check_success_false_flag_and_absent_flag "AddPlaylist" _).2 rfl⟩

/-- C3: `ReportBadSongMatch.validate` succeeds exactly on the expected
literal `[[0], []]`; every other value raises a `ValidationException` whose
message quotes the expected literal. -/
theorem reportBadSongMatch_validate_literal :
    ReportBadSongMatch.validate ReportBadSongMatch.expected_response =
      Except.ok () ∧
    ∀ res : JVal, res ≠ ReportBadSongMatch.expected_response →
      ReportBadSongMatch.validate res =
        Except.error (ValidationException.mk "response != [[0], []]") := by
  constructor
  · simp [ReportBadSongMatch.validate]
  · intro res h
    simp only [ReportBadSongMatch.validate, if_neg h]
    rfl

theorem reportBadSongMatch_validate_literal_witness :
    ReportBadSongMatch.validate
        (JVal.arr [JVal.arr [JVal.int 0], JVal.arr [JVal.int 1]]) =
      Except.error (ValidationException.mk "response != [[0], []]") :=
  reportBadSongMatch_validate_literal.2 _ (by decide)

/-- C4: for the reorder descriptor, omitting both anchors produces exactly
the request body produced by passing both anchors as the empty-string
boundary sentinel, and that body carries `afterEntryId` and `beforeEntryId`
equal to the empty string. -/
theorem changePlaylistOrder_omitted_anchors_eq_empty_sentinels :
    ∀ (playlist_id : String) (song_ids_moving entry_ids_moving : List String),
      ChangePlaylistOrder.dynamic_data playlist_id song_ids_moving
          entry_ids_moving none none =
        ChangePlaylistOrder.dynamic_data playlist_id song_ids_moving
          entry_ids_moving (some "") (some "") ∧
      (ChangePlaylistOrder.payload playlist_id song_ids_moving
          entry_ids_moving none none).lookupKey "afterEntryId" =
        some (JVal.str "") ∧
      (ChangePlaylistOrder.payload playlist_id song_ids_moving
          entry_ids_moving none none).lookupKey "beforeEntryId" =
        some (JVal.str "") := by
  intro playlist_id song_ids_moving entry_ids_moving
  refine ⟨rfl, rfl, rfl⟩

/-- C5 counterexample: with the continuation token present but equal to the
empty string, the built body is the first-page body, not the serialization
of an object carrying an empty `continuationToken` field, so the claim as
stated fails at `T = ""`. -/
theorem getLibrarySongs_cont_token_claim_counterexample :
    GetLibrarySongs.dynamic_data (some "") ≠
      ReqBody.mk (jsonDumps (JVal.obj [("continuationToken", JVal.str "")])) := by
  decide

/-- C5 (amended): building the request body with the continuation token
omitted produces the serialization of the empty object, and building it
with a nonempty continuation token `T` produces the serialization of the
object mapping `continuationToken` to `T`. -/
theorem getLibrarySongs_cont_token_amended :
    GetLibrarySongs.dynamic_data none = ReqBody.mk (jsonDumps (JVal.obj [])) ∧
    ∀ T : String, T ≠ "" →
      GetLibrarySongs.dynamic_data (some T) =
        ReqBody.mk (jsonDumps (JVal.obj [("continuationToken", JVal.str T)])) := by
  refine ⟨rfl, ?_⟩
  intro T h
  simp [GetLibrarySongs.dynamic_data, h]

theorem getLibrarySongs_cont_token_amended_witness :
    GetLibrarySongs.dynamic_data (some "ct") =
      ReqBody.mk (jsonDumps (JVal.obj [("continuationToken", JVal.str "ct")])) :=
  getLibrarySongs_cont_token_amended.2 "ct" (by decide)

/-- C6: for every closed object schema and every object value containing a
key not declared among the schema properties, `WcCall.validate` produces a
validation failure rather than success. -/
theorem validate_closed_schema_undeclared_key_fails :
    ∀ (props : List (String × Bool × Schema)) (kvs : List (String × JVal))
      (k : String) (v : JVal),
      (k, v) ∈ kvs → (∀ p ∈ props, p.1 ≠ k) →
      ∃ e, WcCall.validate (Schema.object props true) (JVal.obj kvs) =
        Except.error e := by
  intro props kvs k v hmem hnd
  have hsome := undeclaredKey_isSome kvs props k v hmem hnd
  cases hp : validictory.validateProps kvs props with
  | error e =>
      exact ⟨ValidationException.mk e,
        by simp [WcCall.validate, validictory.validate, hp]⟩
  | ok u =>
      cases hu : undeclaredKey kvs props with
      | none => rw [hu] at hsome; simp at hsome
      | some kv =>
          exact ⟨ValidationException.mk ("unexpected property " ++ kv.1),
            by simp [WcCall.validate, validictory.validate, hp, hu]⟩

theorem validate_closed_schema_undeclared_key_fails_witness :
    ∃ e, WcCall.validate AddPlaylist.res_schema
      (JVal.obj [("bogus", JVal.str "x")]) = Except.error e :=
  validate_closed_schema_undeclared_key_fails _ _ "bogus" (JVal.str "x")
    (by simp) (by decide)

/-- C7: applying the log filter never changes the input message: after
`filter_response`, the original reference still holds the original dict,
whose `playlist` entry still holds the full, untruncated list. -/
theorem filter_response_preserves_input_message :
    ∀ (store : Store) (msg : Nat) (store2 : Store) (r : Nat),
      GetLibrarySongs.filter_response store msg = some (store2, r) →
      store2[msg]? = store[msg]? ∧
      ∀ (d : PyDict) (pl : JVal), store[msg]? = some d →
        d.lookup "playlist" = some pl →
        ∃ d2, store2[msg]? = some d2 ∧ d2.lookup "playlist" = some pl := by
  intro store msg store2 r h
  cases hd : store[msg]? with
  | none => simp [GetLibrarySongs.filter_response, hd] at h
  | some d =>
      cases hl : d.lookup "playlist" with
      | none => simp [GetLibrarySongs.filter_response, hd, hl] at h
      | some pl =>
          simp [GetLibrarySongs.filter_response, hd, hl] at h
          obtain ⟨h1, _⟩ := h
          have hget := get_append_singleton
            (dictSet d "playlist" (utils.truncate pl 2)) store msg d hd
          subst h1
          refine ⟨hget, ?_⟩
          intro d0 pl0 hd0 hpl0
          injection hd0 with hdd
          subst hdd
          exact ⟨d, hget, hpl0⟩

theorem filter_response_preserves_witness :
    ([[("playlist", JVal.arr [JVal.int 1, JVal.int 2, JVal.int 3])],
      [("playlist", JVal.arr [JVal.int 1, JVal.int 2])]] : Store)[0]? =
      ([[("playlist", JVal.arr [JVal.int 1, JVal.int 2, JVal.int 3])]] :
        Store)[0]? :=
  (filter_response_preserves_input_message
    [[("playlist", JVal.arr [JVal.int 1, JVal.int 2, JVal.int 3])]] 0
    [[("playlist", JVal.arr [JVal.int 1, JVal.int 2, JVal.int 3])],
     [("playlist", JVal.arr [JVal.int 1, JVal.int 2])]] 1 rfl).1

/-- C8: the request-body builders are deterministic and free of ambient
state: over any ambient state type, running `AddPlaylist.dynamic_data` or
`AddToPlaylist.dynamic_data` in two arbitrary states yields the same body,
and leaves the state untouched. -/
theorem dynamic_data_pure_deterministic :
    ∀ (W : Type) (w w2 : W) (title playlist_id : String)
      (song_ids : List String),
      ((AddPlaylist.dynamic_data W title).run w).1 =
        ((AddPlaylist.dynamic_data W title).run w2).1 ∧
      ((AddPlaylist.dynamic_data W title).run w).2 = w ∧
      ((AddToPlaylist.dynamic_data W playlist_id song_ids).run w).1 =
        ((AddToPlaylist.dynamic_data W playlist_id song_ids).run w2).1 ∧
      ((AddToPlaylist.dynamic_data W playlist_id song_ids).run w).2 = w := by
  intro W w w2 title playlist_id song_ids
  exact ⟨rfl, rfl, rfl, rfl⟩

/-- C9: `check_success` raises a `CallFailure` for every decoded response
whose `success` key maps to any falsy value, and raises nothing when it
maps to any truthy value. -/
theorem check_success_falsy_truthy :
    ∀ (name : String) (res : List (String × JVal)) (v : JVal),
      res.lookup "success" = some v →
      ((truthy v = false →
         WcCall.check_success name res =
           Except.error (CallFailure.mk WcCall.failure_message name)) ∧
       (truthy v = true → WcCall.check_success name res = Except.ok ())) := by
  intro name res v h
  constructor
  · intro ht
    simp [WcCall.check_success, h, ht]
  · intro ht
    simp [WcCall.check_success, h, ht]

theorem check_success_falsy_truthy_witness :
    WcCall.check_success "GetLibrarySongs" [("success", JVal.int 0)] =
      Except.error (CallFailure.mk WcCall.failure_message "GetLibrarySongs") ∧
    WcCall.check_success "GetLibrarySongs" [("success", JVal.str "")] =
      Except.error (CallFailure.mk WcCall.failure_message "GetLibrarySongs") ∧
    WcCall.check_success "GetLibrarySongs" [("success", JVal.null)] =
      Except.error (CallFailure.mk WcCall.failure_message "GetLibrarySongs") ∧
    WcCall.check_success "GetLibrarySongs" [("success", JVal.bool true)] =
      Except.ok () :=
  ⟨(check_success_falsy_truthy "GetLibrarySongs"
      [("success", JVal.int 0)] (JVal.int 0) rfl).1 rfl,
   (check_success_falsy_truthy "GetLibrarySongs"
      [("success", JVal.str "")] (JVal.str "") rfl).1 rfl,
   (check_success_falsy_truthy "GetLibrarySongs"
      [("success", JVal.null)] JVal.null rfl).1 rfl,
   (check_success_falsy_truthy "GetLibrarySongs"
      [("success", JVal.bool true)] (JVal.bool true) rfl).2 rfl⟩

/-- C10: `GetLibrarySongs.dynamic_data` treats an empty-string continuation
token exactly like an omitted one: both produce the first-page request
body, the serialization of the empty object. -/
theorem getLibrarySongs_empty_token_first_page :
    GetLibrarySongs.dynamic_data (some "") = GetLibrarySongs.dynamic_data none ∧
    GetLibrarySongs.dynamic_data none = ReqBody.mk (jsonDumps (JVal.obj [])) :=
  ⟨rfl, rfl⟩
